import Mathlib

/-!
Verification development for `src/listing.py` (apacomp): a FastAPI service
that scrapes real-estate listing pages, extracts fields, computes the
nearest of a fixed set of target areas via the haversine formula, and
persists listings to a JSON file.

Modelling conventions (shallow embedding):
* Python `float` values are idealized as exact numbers: coordinates parsed
  from page text become `ℚ`; the trigonometric haversine computation is
  carried out over `ℝ`.
* Network fetch and HTML parsing (`requests`, BeautifulSoup) are external
  libraries; a fetched page is modelled by a `Soup` record holding exactly
  the results of the soup queries that `scrape_listing` performs
  (first `h1` text, first euro-sign span text, `dt`/`dd` pairs,
  formatted paragraphs, per-image `data-big` attributes, and the
  serialized `listing-map-container` element).
* The persisted file is modelled by the collection it holds; each HTTP
  handler is a function from the pre-state of the store to the post-state
  of the store paired with its response.
* `uuid.uuid4()` is modelled by a fresh-identifier parameter.
-/

/-- Python `str.isspace` on the ASCII whitespace characters relevant to
`str.strip()` (space, tab, newline, carriage return, vertical tab, form feed). -/
def isPySpace (c : Char) : Bool :=
  c = ' ' || c = '\t' || c = '\n' || c = '\r' || c = '\x0b' || c = '\x0c'

/-- Python `str.strip()`: remove leading and trailing whitespace. -/
def pyStrip (s : String) : String :=
  ⟨((s.data.dropWhile isPySpace).reverse.dropWhile isPySpace).reverse⟩

/-- Python `str.split(sep)` for a one-character separator `c`:
splits the character list at every occurrence of `c`; the result is
never empty (splitting the empty string gives `[[]]`). -/
def splitOnChar (c : Char) : List Char → List (List Char)
  | [] => [[]]
  | x :: xs =>
    match splitOnChar c xs with
    | [] => [[]]
    | h :: t => if x = c then [] :: h :: t else (x :: h) :: t

/-- Python `needle in hay` on character lists: `pat` occurs as a
contiguous sublist of `s`. -/
def occursIn (pat : List Char) : List Char → Bool
  | [] => pat.isEmpty
  | c :: rest => pat.isPrefixOf (c :: rest) || occursIn pat rest

/-- Python `needle in hay` on strings. -/
def strContains (needle hay : String) : Bool :=
  occursIn needle.data hay.data

/-- The character class `[\d\.]` of the coordinate regular expressions. -/
def isDigitDot (c : Char) : Bool :=
  c.isDigit || c = '.'

/-- Matching the tail `([\d\.]+)"` of the coordinate regular expressions
against `l`: succeeds iff a nonempty maximal run of digits/dots is
followed immediately by a double quote, returning the captured run.
(Backtracking to a shorter run can never help, because the character
after a shorter run is again in the class, not a quote.) -/
def numCapture (l : List Char) : Option (List Char) :=
  let run := l.takeWhile isDigitDot
  if run ≠ [] ∧ (l.drop run.length).head? = some '\"' then some run else none

/-- One anchored attempt of `re` matching `key([\d\.]+)"` at the start of `s`. -/
def tryMatchAt (key : List Char) (s : List Char) : Option (List Char) :=
  if key.isPrefixOf s then numCapture (s.drop key.length) else none

/-- The model of the search for the pattern `key([\d\.]+)"` (with `key` a literal,
nonempty string): scan left to right, return the first captured group. -/
def reSearchNum (key : List Char) : List Char → Option (List Char)
  | [] => none
  | c :: rest =>
    match tryMatchAt key (c :: rest) with
    | some g => some g
    | none => reSearchNum key rest

/-- The literal part of the latitude search pattern: the text `[latitude]="` that precedes the captured group. -/
def latKey : List Char := "[latitude]=\"".data

/-- The literal part of the longitude search pattern: the text `[longitude]="` that precedes the captured group. -/
def lonKey : List Char := "[longitude]=\"".data

/-- Numeric value of a digit list (most significant digit first). -/
def digitsToNat (l : List Char) : Nat :=
  l.foldl (fun n c => 10 * n + (c.toNat - 48)) 0

/-- Python `float()` applied to a string drawn from the class `[\d\.]+`:
defined (does not raise `ValueError`) iff the string has at most one dot
and at least one digit; the value is idealized as the exact rational. -/
def parseNumStr (l : List Char) : Option ℚ :=
  if l.all isDigitDot ∧ l.count '.' ≤ 1 ∧ l.any Char.isDigit then
    some ((digitsToNat (l.takeWhile Char.isDigit) : ℚ) +
      (digitsToNat ((l.drop (l.takeWhile Char.isDigit).length).drop 1) : ℚ) /
        (10 : ℚ) ^ ((l.drop (l.takeWhile Char.isDigit).length).drop 1).length)
  else
    none

/-- Python `math.atan2(y, x)` (the C library convention), idealized over `ℝ`. -/
noncomputable def atan2 (y x : ℝ) : ℝ :=
  if 0 < x then Real.arctan (y / x)
  else if x = 0 then (if 0 < y then Real.pi / 2 else if y < 0 then -(Real.pi / 2) else 0)
  else if 0 ≤ y then Real.arctan (y / x) + Real.pi
  else Real.arctan (y / x) - Real.pi

/-- Python `math.radians`. -/
noncomputable def radians (x : ℝ) : ℝ :=
  x * Real.pi / 180

/-- The local `a` of `haversine` in `src/listing.py`:
`sin(dlat/2)**2 + cos(radians(lat1)) * cos(radians(lat2)) * sin(dlon/2)**2`
with `dlat = radians(lat2 - lat1)` and `dlon = radians(lon2 - lon1)`. -/
noncomputable def havTerm (lat1 lon1 lat2 lon2 : ℝ) : ℝ :=
  Real.sin (radians (lat2 - lat1) / 2) ^ 2 +
    Real.cos (radians lat1) * Real.cos (radians lat2) *
      Real.sin (radians (lon2 - lon1) / 2) ^ 2

/-- The function `haversine(lat1, lon1, lat2, lon2)` from `src/listing.py`
(`R = 6371` km Earth radius), idealized over `ℝ`.  (`math.sqrt` raises on
negative input where `Real.sqrt` returns 0; the argument `a` is
nonnegative for every latitude in `[-90, 90]`, which covers all inputs the
claims are about.) -/
noncomputable def haversine (lat1 lon1 lat2 lon2 : ℝ) : ℝ :=
  6371 * 2 * atan2 (Real.sqrt (havTerm lat1 lon1 lat2 lon2))
    (Real.sqrt (1 - havTerm lat1 lon1 lat2 lon2))

/-- Python round-half-to-even rounding of `y` to the nearest integer
(`round` ties go to the even integer). -/
noncomputable def bankRound (y : ℝ) : ℤ :=
  if y - (⌊y⌋ : ℝ) < 1 / 2 then ⌊y⌋
  else if 1 / 2 < y - (⌊y⌋ : ℝ) then ⌊y⌋ + 1
  else if Even ⌊y⌋ then ⌊y⌋ else ⌊y⌋ + 1

/-- Python `round(x, 2)`: rounding to two decimal places, idealized as the
exact rational result. -/
noncomputable def pyRound2 (x : ℝ) : ℚ :=
  (bankRound (x * 100) : ℚ) / 100

/-- The constant `TARGET_AREAS` from `src/listing.py`, in dict insertion order
(which is the iteration order of `min` over the dict). -/
def TARGET_AREAS : List (String × ℚ × ℚ) :=
  [("Töölö", 60.1826, 24.9221),
   ("Kallio", 60.1854, 24.9525),
   ("Punavuori", 60.1595, 24.9384)]

/-- Python `min(distances, key=distances.get)` over the insertion-ordered
distances dict: fold keeping the first entry attaining the minimum value. -/
noncomputable def minByDist : (String × ℝ) → List (String × ℝ) → (String × ℝ)
  | best, [] => best
  | best, x :: rest => minByDist (if x.2 < best.2 then x else best) rest

/-- The function `get_nearest_area(lat, lon)` from `src/listing.py`: build the distances
dict over `TARGET_AREAS`, select the key of minimum distance, and return it
with the distance rounded to 2 decimals.  (The empty-list fallback is
unreachable: `TARGET_AREAS` is a fixed nonempty constant; Python `min`
would raise on an empty dict.) -/
noncomputable def get_nearest_area (lat lon : ℚ) : String × ℚ :=
  match TARGET_AREAS.map (fun a => (a.1, haversine (lat : ℝ) (lon : ℝ) (a.2.1 : ℝ) (a.2.2 : ℝ))) with
  | [] => ("", 0)
  | d :: rest =>
    ((minByDist d rest).1, pyRound2 (minByDist d rest).2)

/-- The `Listing` pydantic model from `src/listing.py`; `float` fields are
idealized as `ℚ` (values produced by `float()` on digit strings and by
`round(_, 2)`). Default values mirror the Python field defaults. -/
structure Listing where
  id : String
  url : String
  address : String := ""
  price : String := ""
  area : String := ""
  floor : String := ""
  rooms : String := ""
  description : String := ""
  image_urls : List String := []
  latitude : Option ℚ := none
  longitude : Option ℚ := none
  nearest_target : String := ""
  distance_to_target_km : Option ℚ := none
deriving DecidableEq

/-- A fetched and parsed listing page, modelled by the results of exactly
the BeautifulSoup queries `scrape_listing` performs on it:
* `h1Text`: `soup.find("h1")` and its `get_text(strip=True)`;
* `priceText`: the first `span` whose string contains a euro sign, and its
  `get_text(strip=True)`;
* `dtdd`: for each `dt` in document order, its stripped text and the
  stripped text of its `find_next_sibling("dd")` (if any);
* `paragraphs`: the stripped texts of all `p.paragraph--keep-formatting`;
* `imgDataBig`: for each `img` in document order, its `data-big`
  attribute value (if present);
* `mapTag`: `str(soup.find("listing-map-container"))` when that element
  exists. -/
structure Soup where
  h1Text : Option String := none
  priceText : Option String := none
  dtdd : List (String × Option String) := []
  paragraphs : List String := []
  imgDataBig : List (Option String) := []
  mapTag : Option String := none

/-- The `dt`/`dd` loop of `scrape_listing` (lines 104-114): scan the
pairs in document order; a key containing `"Asuinpinta-ala"` sets the
area, a key containing `"Kerros"` sets the floor; pairs without a `dd`
sibling are skipped; later matches overwrite earlier ones. -/
def extractAreaFloor (pairs : List (String × Option String)) : String × String :=
  pairs.foldl
    (fun acc p =>
      match p.2 with
      | none => acc
      | some val =>
        (if strContains "Asuinpinta-ala" p.1 then val else acc.1,
         if strContains "Kerros" p.1 then val else acc.2))
    ("", "")

/-- The coordinate extraction of `scrape_listing` (lines 125-136):
`none` models the `ValueError` raised by `float()` on a matched group
that is not a valid float literal (caught by the handler as a 500);
`some (lat?, lon?)` gives the extracted optional coordinates. Both
regular expressions must match for the pair to be populated. -/
def extractCoords (doc : Soup) : Option (Option ℚ × Option ℚ) :=
  match doc.mapTag with
  | none => some (none, none)
  | some tagStr =>
    match reSearchNum latKey tagStr.data, reSearchNum lonKey tagStr.data with
    | some g1, some g2 =>
      match parseNumStr g1, parseNumStr g2 with
      | some la, some lo => some (some la, some lo)
      | _, _ => none
    | _, _ => some (none, none)

/-- Lines 138-147 of `scrape_listing`: `if latitude and longitude:`
(Python truthiness: `None` and `0.0` are both falsy) guards the
nearest-area computation, which inlines exactly the body of
`get_nearest_area`. Returns the `(nearest_target, distance_to_target_km)`
pair of the listing under construction. -/
noncomputable def nearestPart (la? lo? : Option ℚ) : String × Option ℚ :=
  match la?, lo? with
  | some la, some lo =>
    if la ≠ 0 ∧ lo ≠ 0 then
      ((get_nearest_area la lo).1, some (get_nearest_area la lo).2)
    else ("", none)
  | _, _ => ("", none)

/-- The address/rooms extraction of `scrape_listing` (lines 92-97):
split the `h1` text on `'●'`; the part before is the address, the part
after (when present) the rooms, both stripped. -/
def addressRooms (h1Text : Option String) : String × String :=
  match splitOnChar '●' ((h1Text.getD "").data) with
  | [] => ("", "")
  | p0 :: rest =>
    (pyStrip ⟨p0⟩, if rest.length > 0 then pyStrip ⟨rest.headD []⟩ else "")

/-- The function `scrape_listing(url)` from `src/listing.py`, given the fetched page
`doc` and the identifier `freshId` generated by `uuid.uuid4()`.
`none` models the raised `HTTPException(500)` (the only failure the model
can express: `float()` raising on a malformed matched coordinate). -/
noncomputable def scrape_listing (url : String) (doc : Soup) (freshId : String) : Option Listing :=
  match extractCoords doc with
  | none => none
  | some (la?, lo?) =>
    some
      { id := freshId
        url := url
        address := (addressRooms doc.h1Text).1
        price := doc.priceText.getD ""
        area := (extractAreaFloor doc.dtdd).1
        floor := (extractAreaFloor doc.dtdd).2
        rooms := (addressRooms doc.h1Text).2
        description := String.intercalate "\n\n" doc.paragraphs
        image_urls := doc.imgDataBig.filterMap id
        latitude := la?
        longitude := lo?
        nearest_target := (nearestPart la? lo?).1
        distance_to_target_km := (nearestPart la? lo?).2 }

/-- An HTTP handler outcome: a value, or a raised `HTTPException(code)`. -/
inductive ApiResult (α : Type) where
  | ok (value : α)
  | httpError (code : Nat)
deriving DecidableEq

/-- The handler `add_listing` (lines 172-180): load the store, reject a duplicate URL
with a 400 before scraping, otherwise scrape, append, save, and return the
new listing. The first component of the result is the persisted store
after the handler (unchanged when an exception is raised, since
`save_data` is then never reached). -/
noncomputable def add_listing (store : List Listing) (url : String) (doc : Soup)
    (freshId : String) : List Listing × ApiResult Listing :=
  if store.any (fun l => l.url == url) then
    (store, .httpError 400)
  else
    match scrape_listing url doc freshId with
    | none => (store, .httpError 500)
    | some nl => (store ++ [nl], .ok nl)

/-- The handler `delete_listing` (lines 182-191): filter out every listing whose id
equals `lid`; if nothing was removed raise a 404 (leaving the file
untouched), otherwise save and return the remaining collection. -/
def delete_listing (store : List Listing) (lid : String) : List Listing × ApiResult (List Listing) :=
  if ((store.filter (fun l => l.id != lid)).length = store.length) then
    (store, .httpError 404)
  else
    (store.filter (fun l => l.id != lid), .ok (store.filter (fun l => l.id != lid)))

/-- Helper: the 404 branch of `delete_listing` is taken exactly when no
stored listing has the given id. -/
lemma delete_listing_miss (store : List Listing) (lid : String)
    (h : ∀ l ∈ store, l.id ≠ lid) :
    delete_listing store lid = (store, ApiResult.httpError 404) := by
  have hlen : (store.filter (fun l => l.id != lid)).length = store.length :=
    List.filter_length_eq_length.2 (fun a ha => by simpa using h a ha)
  unfold delete_listing
  rw [if_pos hlen]

/-- Helper: the success branch of `delete_listing` is taken exactly when
some stored listing has the given id. -/
lemma delete_listing_hit (store : List Listing) (lid : String)
    (h : ∃ l ∈ store, l.id = lid) :
    delete_listing store lid =
      (store.filter (fun l => l.id != lid), ApiResult.ok (store.filter (fun l => l.id != lid))) := by
  obtain ⟨l, hl, hid⟩ := h
  have hlen : (store.filter (fun l => l.id != lid)).length ≠ store.length := by
    intro he
    have := List.filter_length_eq_length.1 he l hl
    simp [hid] at this
  unfold delete_listing
  rw [if_neg hlen]

/-- Sample listings used to instantiate hypothesis-bearing theorems. -/
def sampleListing : Listing :=
  { id := "a", url := "u" }

/-- A second sample listing sharing the id of `sampleListing`. -/
def sampleListing2 : Listing :=
  { id := "a", url := "v" }

/-- A third sample listing with a distinct id. -/
def sampleListing3 : Listing :=
  { id := "b", url := "w" }

/-- C1: for every stored collection and add request whose URL equals the
URL of a listing already stored, `add_listing` raises the 400 conflict and
the persisted store is unchanged; the outcome does not depend on the page
or the generated identifier, since the duplicate check precedes the
scrape. -/
theorem add_listing_conflict (store : List Listing) (url : String) (doc : Soup)
    (freshId : String) (l : Listing) (hmem : l ∈ store) (hurl : l.url = url) :
    add_listing store url doc freshId = (store, ApiResult.httpError 400) := by
  have hany : store.any (fun l => l.url == url) = true :=
    List.any_eq_true.2 ⟨l, hmem, by simp [hurl]⟩
  unfold add_listing
  rw [if_pos hany]

/-- Witness for C1 at a concrete store and request. -/
theorem add_listing_conflict_witness :
    add_listing [sampleListing] "u" {} "fresh" = ([sampleListing], ApiResult.httpError 400) :=
  add_listing_conflict [sampleListing] "u" {} "fresh" sampleListing
    (List.mem_singleton.2 rfl) rfl

/-- C2: deleting an id that matches no stored listing raises the 404 and
leaves the persisted store unchanged; deleting a matching id persists and
returns the remaining collection. -/
theorem delete_listing_spec (store : List Listing) (lid : String) :
    ((∀ l ∈ store, l.id ≠ lid) → delete_listing store lid = (store, ApiResult.httpError 404)) ∧
    ((∃ l ∈ store, l.id = lid) →
      delete_listing store lid =
        (store.filter (fun l => l.id != lid), ApiResult.ok (store.filter (fun l => l.id != lid)))) :=
  ⟨delete_listing_miss store lid, delete_listing_hit store lid⟩

/-- Witness for C2 at a concrete store, in both directions. -/
theorem delete_listing_spec_witness :
    delete_listing [sampleListing] "zzz" = ([sampleListing], ApiResult.httpError 404) ∧
    delete_listing [sampleListing] "a" =
      ([sampleListing].filter (fun l => l.id != "a"),
        ApiResult.ok ([sampleListing].filter (fun l => l.id != "a"))) :=
  ⟨(delete_listing_spec [sampleListing] "zzz").1 (by decide),
   (delete_listing_spec [sampleListing] "a").2 ⟨sampleListing, List.mem_singleton.2 rfl, rfl⟩⟩

/-- C9: a successful delete removes every record whose id equals the given
identifier (not just the first match), and the remaining records keep
their contents and relative order (they form a sublist of the original
store containing every non-matching record). -/
theorem delete_listing_removes_all (store : List Listing) (lid : String)
    (h : ∃ l ∈ store, l.id = lid) :
    ∃ out, delete_listing store lid = (out, ApiResult.ok out) ∧
      out.Sublist store ∧ (∀ l ∈ out, l.id ≠ lid) ∧
      (∀ l ∈ store, l.id ≠ lid → l ∈ out) := by
  refine ⟨store.filter (fun l => l.id != lid), delete_listing_hit store lid h,
    List.filter_sublist store, ?_, ?_⟩
  · intro l hl
    have := (List.mem_filter.1 hl).2
    simpa using this
  · intro l hl hne
    exact List.mem_filter.2 ⟨hl, by simpa using hne⟩

/-- Witness for C9: both records with the duplicated id are removed, the
record with the other id survives. -/
theorem delete_listing_removes_all_witness :
    ∃ out, delete_listing [sampleListing, sampleListing3, sampleListing2] "a" =
        (out, ApiResult.ok out) ∧
      out.Sublist [sampleListing, sampleListing3, sampleListing2] ∧
      (∀ l ∈ out, l.id ≠ "a") ∧
      (∀ l ∈ [sampleListing, sampleListing3, sampleListing2], l.id ≠ "a" → l ∈ out) :=
  delete_listing_removes_all [sampleListing, sampleListing3, sampleListing2] "a"
    ⟨sampleListing, by simp, rfl⟩

/-- Helper: a scraped listing carries the generated identifier and the
requested URL. -/
lemma scrape_listing_id_url (url : String) (doc : Soup) (fid : String) (nl : Listing)
    (h : scrape_listing url doc fid = some nl) : nl.id = fid ∧ nl.url = url := by
  unfold scrape_listing at h
  cases he : extractCoords doc with
  | none => rw [he] at h; cases h
  | some p =>
    obtain ⟨a, b⟩ := p
    rw [he] at h
    cases h
    exact ⟨rfl, rfl⟩

/-- C7: adding a URL that is not yet stored appends the newly assembled
listing (carrying the freshly generated identifier and the requested URL)
to the end of the collection, persists the result, and returns the new
record; the previously stored records stay in place as the prefix. -/
theorem add_listing_appends (store : List Listing) (url : String) (doc : Soup)
    (fid : String) (nl : Listing)
    (hfresh : ∀ l ∈ store, l.url ≠ url)
    (hscrape : scrape_listing url doc fid = some nl) :
    add_listing store url doc fid = (store ++ [nl], ApiResult.ok nl) ∧
      nl.id = fid ∧ nl.url = url := by
  have hany : store.any (fun l => l.url == url) = false := by
    simp only [List.any_eq_false]
    intro l hl
    simpa using hfresh l hl
  refine ⟨?_, scrape_listing_id_url url doc fid nl hscrape⟩
  unfold add_listing
  rw [if_neg (by simp [hany]), hscrape]

/-- The listing scraped from a page on which every soup query comes back
empty. -/
def sampleScraped : Listing :=
  { id := "fresh", url := "u" }

/-- Witness for C7 at the empty store and an empty page. -/
theorem add_listing_appends_witness :
    add_listing [] "u" {} "fresh" = ([sampleScraped], ApiResult.ok sampleScraped) ∧
      sampleScraped.id = "fresh" ∧ sampleScraped.url = "u" :=
  add_listing_appends [] "u" {} "fresh" sampleScraped (by simp) (by decide)

/-- Helper: the haversine distance from a point to itself is zero. -/
lemma haversine_self (lat lon : ℝ) : haversine lat lon lat lon = 0 := by
  have ha : havTerm lat lon lat lon = 0 := by
    simp [havTerm, radians]
  simp [haversine, ha, atan2, Real.arctan_zero]

/-- Helper: `havTerm` is symmetric in its two coordinate pairs. -/
lemma havTerm_symm (a b c d : ℝ) : havTerm a b c d = havTerm c d a b := by
  unfold havTerm
  have e1 : radians (a - c) = -(radians (c - a)) := by unfold radians; ring
  have e2 : radians (b - d) = -(radians (d - b)) := by unfold radians; ring
  have h1 : Real.sin (radians (a - c) / 2) ^ 2 = Real.sin (radians (c - a) / 2) ^ 2 := by
    rw [e1, neg_div, Real.sin_neg]; ring
  have h2 : Real.sin (radians (b - d) / 2) ^ 2 = Real.sin (radians (d - b) / 2) ^ 2 := by
    rw [e2, neg_div, Real.sin_neg]; ring
  rw [h1, h2, mul_comm (Real.cos (radians c)) (Real.cos (radians a))]

/-- Helper: the haversine distance is symmetric. -/
lemma haversine_symm (a b c d : ℝ) : haversine a b c d = haversine c d a b := by
  unfold haversine
  rw [havTerm_symm]

/-- C5: the great-circle distance function of the code vanishes on the
diagonal and is symmetric in its two coordinate pairs. -/
theorem haversine_diag_and_symm (lat lon lat' lon' : ℝ) :
    haversine lat lon lat lon = 0 ∧
      haversine lat lon lat' lon' = haversine lat' lon' lat lon :=
  ⟨haversine_self lat lon, haversine_symm lat lon lat' lon'⟩

/-- Helper: the cosine of a latitude strictly between -90 and 90 degrees
is positive. -/
lemma cos_radians_pos (la : ℝ) (ha : -90 < la) (hb : la < 90) :
    0 < Real.cos (radians la) := by
  have hpi := Real.pi_pos
  apply Real.cos_pos_of_mem_Ioo
  unfold radians
  constructor
  · show -(Real.pi / 2) < la * Real.pi / 180
    nlinarith
  · show la * Real.pi / 180 < Real.pi / 2
    nlinarith

/-- Helper: `havTerm` is strictly positive for two points with distinct
latitudes strictly between -90 and 90 degrees. -/
lemma havTerm_pos (la1 lo1 la2 lo2 : ℝ) (h1a : -90 < la1) (h1b : la1 < 90)
    (h2a : -90 < la2) (h2b : la2 < 90) (hne : la1 ≠ la2) :
    0 < havTerm la1 lo1 la2 lo2 := by
  have hpi := Real.pi_pos
  have hx : radians (la2 - la1) / 2 = (la2 - la1) * Real.pi / 360 := by
    unfold radians; ring
  have hsin : Real.sin (radians (la2 - la1) / 2) ≠ 0 := by
    rw [hx]
    intro h0
    rw [Real.sin_eq_zero_iff_of_lt_of_lt (by nlinarith) (by nlinarith)] at h0
    apply hne
    have hpi2 : Real.pi ≠ 0 := ne_of_gt hpi
    have hd : la2 - la1 = 0 := by
      field_simp at h0
      rcases mul_eq_zero.1 h0 with h | h
      · exact h
      · exact absurd h hpi2
    linarith
  have h1 : 0 < Real.sin (radians (la2 - la1) / 2) ^ 2 := pow_two_pos_of_ne_zero hsin
  have h2 : 0 ≤ Real.cos (radians la1) * Real.cos (radians la2) *
      Real.sin (radians (lo2 - lo1) / 2) ^ 2 :=
    mul_nonneg (mul_nonneg (cos_radians_pos la1 h1a h1b).le (cos_radians_pos la2 h2a h2b).le)
      (sq_nonneg _)
  unfold havTerm
  linarith

/-- Helper: `atan2` of a positive ordinate and nonnegative abscissa is
positive. -/
lemma atan2_pos (y x : ℝ) (hy : 0 < y) (hx : 0 ≤ x) : 0 < atan2 y x := by
  unfold atan2
  rcases lt_or_eq_of_le hx with h | h
  · rw [if_pos h]
    have hq : 0 < y / x := div_pos hy h
    calc (0:ℝ) = Real.arctan 0 := Real.arctan_zero.symm
    _ < Real.arctan (y / x) := Real.arctan_strictMono hq
  · rw [if_neg (by rw [← h]; exact lt_irrefl 0), if_pos h.symm, if_pos hy]
    positivity

/-- Helper: the haversine distance between two points with distinct
latitudes strictly between -90 and 90 degrees is positive. -/
lemma haversine_pos (la1 lo1 la2 lo2 : ℝ) (h1a : -90 < la1) (h1b : la1 < 90)
    (h2a : -90 < la2) (h2b : la2 < 90) (hne : la1 ≠ la2) :
    0 < haversine la1 lo1 la2 lo2 := by
  have ha := havTerm_pos la1 lo1 la2 lo2 h1a h1b h2a h2b hne
  have h1 : 0 < Real.sqrt (havTerm la1 lo1 la2 lo2) := Real.sqrt_pos.2 ha
  have h2 : 0 ≤ Real.sqrt (1 - havTerm la1 lo1 la2 lo2) := Real.sqrt_nonneg _
  have h3 := atan2_pos _ _ h1 h2
  unfold haversine
  nlinarith

/-- Helper: Python `round(0.0, 2)` is `0.0`. -/
lemma pyRound2_zero : pyRound2 0 = 0 := by
  unfold pyRound2 bankRound
  norm_num

/-- Helper: the fold keeps the head of a three-entry distances dict when
no later entry is strictly smaller. -/
lemma minByDist_first (n0 n1 n2 : String) (d0 d1 d2 : ℝ)
    (h1 : ¬ d1 < d0) (h2 : ¬ d2 < d0) :
    minByDist (n0, d0) [(n1, d1), (n2, d2)] = (n0, d0) := by
  rw [minByDist, if_neg h1, minByDist, if_neg h2, minByDist]

/-- Helper: the fold moves to the second entry when it is strictly smaller
than the first and the third is not strictly smaller than it. -/
lemma minByDist_second (n0 n1 n2 : String) (d0 d1 d2 : ℝ)
    (h1 : d1 < d0) (h2 : ¬ d2 < d1) :
    minByDist (n0, d0) [(n1, d1), (n2, d2)] = (n1, d1) := by
  rw [minByDist, if_pos h1, minByDist, if_neg h2, minByDist]

/-- Helper: the fold ends on the third entry when it is strictly smaller
than both earlier entries. -/
lemma minByDist_third (n0 n1 n2 : String) (d0 d1 d2 : ℝ)
    (h1 : d2 < d0) (h2 : d2 < d1) :
    minByDist (n0, d0) [(n1, d1), (n2, d2)] = (n2, d2) := by
  by_cases h : d1 < d0
  · rw [minByDist, if_pos h, minByDist, if_pos h2, minByDist]
  · rw [minByDist, if_neg h, minByDist, if_pos h1, minByDist]

/-- C4: for every target area in `TARGET_AREAS`, nearest-area selection at
exactly that area's coordinates returns that area's name with rounded
distance 0.00. -/
theorem get_nearest_area_at_target :
    ∀ e ∈ TARGET_AREAS, get_nearest_area e.2.1 e.2.2 = (e.1, 0) := by
  intro e he
  simp only [TARGET_AREAS, List.mem_cons, List.mem_singleton,
    List.not_mem_nil, or_false] at he
  have hTK : ((60.1826:ℚ):ℝ) ≠ ((60.1854:ℚ):ℝ) := by norm_num
  have hTP : ((60.1826:ℚ):ℝ) ≠ ((60.1595:ℚ):ℝ) := by norm_num
  have hKP : ((60.1854:ℚ):ℝ) ≠ ((60.1595:ℚ):ℝ) := by norm_num
  rcases he with rfl | rfl | rfl
  · have hK : 0 < haversine ((60.1826:ℚ):ℝ) ((24.9221:ℚ):ℝ) ((60.1854:ℚ):ℝ) ((24.9525:ℚ):ℝ) :=
      haversine_pos _ _ _ _ (by norm_num) (by norm_num) (by norm_num) (by norm_num) hTK
    have hP : 0 < haversine ((60.1826:ℚ):ℝ) ((24.9221:ℚ):ℝ) ((60.1595:ℚ):ℝ) ((24.9384:ℚ):ℝ) :=
      haversine_pos _ _ _ _ (by norm_num) (by norm_num) (by norm_num) (by norm_num) hTP
    show get_nearest_area 60.1826 24.9221 = ("Töölö", 0)
    simp only [get_nearest_area, TARGET_AREAS, List.map]
    rw [haversine_self ((60.1826:ℚ):ℝ) ((24.9221:ℚ):ℝ)]
    rw [minByDist_first _ _ _ _ _ _ (not_lt.2 hK.le) (not_lt.2 hP.le)]
    rw [pyRound2_zero]
  · have hT : 0 < haversine ((60.1854:ℚ):ℝ) ((24.9525:ℚ):ℝ) ((60.1826:ℚ):ℝ) ((24.9221:ℚ):ℝ) :=
      haversine_pos _ _ _ _ (by norm_num) (by norm_num) (by norm_num) (by norm_num) (Ne.symm hTK)
    have hP : 0 < haversine ((60.1854:ℚ):ℝ) ((24.9525:ℚ):ℝ) ((60.1595:ℚ):ℝ) ((24.9384:ℚ):ℝ) :=
      haversine_pos _ _ _ _ (by norm_num) (by norm_num) (by norm_num) (by norm_num) hKP
    show get_nearest_area 60.1854 24.9525 = ("Kallio", 0)
    simp only [get_nearest_area, TARGET_AREAS, List.map]
    rw [haversine_self ((60.1854:ℚ):ℝ) ((24.9525:ℚ):ℝ)]
    rw [minByDist_second _ _ _ _ _ _ hT (not_lt.2 hP.le)]
    rw [pyRound2_zero]
  · have hT : 0 < haversine ((60.1595:ℚ):ℝ) ((24.9384:ℚ):ℝ) ((60.1826:ℚ):ℝ) ((24.9221:ℚ):ℝ) :=
      haversine_pos _ _ _ _ (by norm_num) (by norm_num) (by norm_num) (by norm_num) (Ne.symm hTP)
    have hK : 0 < haversine ((60.1595:ℚ):ℝ) ((24.9384:ℚ):ℝ) ((60.1854:ℚ):ℝ) ((24.9525:ℚ):ℝ) :=
      haversine_pos _ _ _ _ (by norm_num) (by norm_num) (by norm_num) (by norm_num) (Ne.symm hKP)
    show get_nearest_area 60.1595 24.9384 = ("Punavuori", 0)
    simp only [get_nearest_area, TARGET_AREAS, List.map]
    rw [haversine_self ((60.1595:ℚ):ℝ) ((24.9384:ℚ):ℝ)]
    rw [minByDist_third _ _ _ _ _ _ hT hK]
    rw [pyRound2_zero]

/-- Witness for C4 at the example of the claim: coordinates
(60.1854, 24.9525) give nearest target Kallio at rounded distance 0.0. -/
theorem get_nearest_area_at_target_witness :
    get_nearest_area 60.1854 24.9525 = ("Kallio", 0) :=
  get_nearest_area_at_target ("Kallio", 60.1854, 24.9525)
    (by simp [TARGET_AREAS])

/-- The JSON values exchanged between `save_data` (`json.dump` of
`listing.dict()`) and `load_data` (`json.load` then `Listing(**item)`).
Numbers are idealized as exact rationals, matching the `ℚ` idealization of
the float fields. -/
inductive Json where
  | null : Json
  | str : String → Json
  | num : ℚ → Json
  | arr : List Json → Json
  | obj : List (String × Json) → Json

/-- Dictionary lookup in a serialized object (keys written by
`listing.dict()` are unique). -/
def jGet : List (String × Json) → String → Option Json
  | [], _ => none
  | (k', v) :: rest, k => if k' = k then some v else jGet rest k

/-- An optional-float field of a `Listing`, serialized. -/
def optNumToJson : Option ℚ → Json
  | none => Json.null
  | some q => Json.num q

/-- Serialization `listing.dict()` of a `Listing`, then `json.dump`: field order is the
pydantic declaration order. -/
def listingToJson (l : Listing) : Json :=
  Json.obj
    [("id", Json.str l.id),
     ("url", Json.str l.url),
     ("address", Json.str l.address),
     ("price", Json.str l.price),
     ("area", Json.str l.area),
     ("floor", Json.str l.floor),
     ("rooms", Json.str l.rooms),
     ("description", Json.str l.description),
     ("image_urls", Json.arr (l.image_urls.map Json.str)),
     ("latitude", optNumToJson l.latitude),
     ("longitude", optNumToJson l.longitude),
     ("nearest_target", Json.str l.nearest_target),
     ("distance_to_target_km", optNumToJson l.distance_to_target_km)]

/-- Reading a required `str` field during `Listing(**item)` validation. -/
def jReqStr (fs : List (String × Json)) (k : String) : Option String :=
  match jGet fs k with
  | some (Json.str s) => some s
  | _ => none

/-- Reading an optional `str` field (with its pydantic default) during
`Listing(**item)` validation. -/
def jGetStr (fs : List (String × Json)) (k : String) (dflt : String) : Option String :=
  match jGet fs k with
  | none => some dflt
  | some (Json.str s) => some s
  | some _ => none

/-- Reading a `float | None` field during `Listing(**item)` validation. -/
def jGetOptNum (fs : List (String × Json)) (k : String) : Option (Option ℚ) :=
  match jGet fs k with
  | none => some none
  | some Json.null => some none
  | some (Json.num q) => some (some q)
  | some _ => none

/-- One element of a `List[str]` field during validation. -/
def jStrElem : Json → Option String
  | Json.str s => some s
  | _ => none

/-- Validation of the elements of a `List[str]` field, failing on the
first ill-typed element. -/
def strListOf : List Json → Option (List String)
  | [] => some []
  | j :: rest =>
    match jStrElem j, strListOf rest with
    | some s, some l => some (s :: l)
    | _, _ => none

/-- Reading a `List[str]` field during `Listing(**item)` validation. -/
def jGetStrList (fs : List (String × Json)) (k : String) : Option (List String) :=
  match jGet fs k with
  | none => some []
  | some (Json.arr xs) => strListOf xs
  | some _ => none

/-- Validation `Listing(**item)`: pydantic validation of one deserialized item;
`none` models the `ValidationError` raised on a missing required field or
an ill-typed value (extra keys are ignored). -/
def listingFromJson : Json → Option Listing
  | Json.obj fs => do
    let i ← jReqStr fs "id"
    let u ← jReqStr fs "url"
    let ad ← jGetStr fs "address" ""
    let pr ← jGetStr fs "price" ""
    let ar ← jGetStr fs "area" ""
    let fl ← jGetStr fs "floor" ""
    let ro ← jGetStr fs "rooms" ""
    let de ← jGetStr fs "description" ""
    let im ← jGetStrList fs "image_urls"
    let la ← jGetOptNum fs "latitude"
    let lo ← jGetOptNum fs "longitude"
    let nt ← jGetStr fs "nearest_target" ""
    let dk ← jGetOptNum fs "distance_to_target_km"
    some
      { id := i, url := u, address := ad, price := pr, area := ar, floor := fl,
        rooms := ro, description := de, image_urls := im, latitude := la,
        longitude := lo, nearest_target := nt, distance_to_target_km := dk }
  | _ => none

/-- Saving, `save_data(listings)`: the JSON array written to the file. -/
def saveStore (listings : List Listing) : Json :=
  Json.arr (listings.map listingToJson)

/-- Validation of the items of a loaded JSON array, failing on the first
invalid item (the list comprehension in `load_data`). -/
def loadItems : List Json → Option (List Listing)
  | [] => some []
  | j :: rest =>
    match listingFromJson j, loadItems rest with
    | some l, some ls => some (l :: ls)
    | _, _ => none

/-- Loading, `load_data()`, on a file holding `j`: deserialize and validate every
item; `none` models a raised `ValidationError` (or a file whose top level
is not a list). -/
def loadStore (j : Json) : Option (List Listing) :=
  match j with
  | Json.arr xs => loadItems xs
  | _ => none

/-- Helper: validating the serialization of a `List[str]` field gives the
field back. -/
lemma strListOf_map (xs : List String) :
    strListOf (xs.map Json.str) = some xs := by
  induction xs with
  | nil => rfl
  | cons x xs ih => simp [List.map, strListOf, jStrElem, ih]

/-- Helper: one listing survives the dump/load round trip unchanged. -/
lemma listingFromJson_listingToJson (l : Listing) :
    listingFromJson (listingToJson l) = some l := by
  obtain ⟨i, u, ad, pr, ar, fl, ro, de, im, la, lo, nt, dk⟩ := l
  cases la <;> cases lo <;> cases dk <;>
    simp [listingToJson, listingFromJson, jReqStr, jGetStr, jGetOptNum,
      jGetStrList, jGet, optNumToJson, strListOf_map]

/-- Helper: validating every serialized listing of a collection gives the
collection back. -/
lemma loadItems_map (listings : List Listing) :
    loadItems (listings.map listingToJson) = some listings := by
  induction listings with
  | nil => rfl
  | cons l rest ih =>
    simp only [List.map, loadItems, listingFromJson_listingToJson, ih]

/-- C6: saving a collection of listings and loading it back through the
persisted JSON file reproduces the collection, in order. -/
theorem loadStore_saveStore (listings : List Listing) :
    loadStore (saveStore listings) = some listings :=
  loadItems_map listings

/-- Helper: splitting a list that contains no separator yields the list
itself as the single part. -/
lemma splitOnChar_no_delim (d : Char) (l : List Char) (h : ∀ c ∈ l, c ≠ d) :
    splitOnChar d l = [l] := by
  induction l with
  | nil => rfl
  | cons x xs ih =>
    have hx : x ≠ d := h x (List.mem_cons_self x xs)
    rw [splitOnChar, ih (fun c hc => h c (List.mem_cons_of_mem x hc))]
    simp [hx]

/-- Helper: the address/rooms extraction on a missing `h1`. -/
lemma addressRooms_none : addressRooms none = ("", "") := by decide

/-- Helper: the address/rooms extraction on a stripped heading without the
`'●'` delimiter returns the whole heading as address and empty rooms. -/
lemma addressRooms_no_delim (t : String) (hstrip : pyStrip t = t)
    (hdelim : ∀ c ∈ t.data, c ≠ '●') :
    addressRooms (some t) = (t, "") := by
  obtain ⟨tl⟩ := t
  unfold addressRooms
  simp only [Option.getD]
  rw [splitOnChar_no_delim '●' tl hdelim]
  simpa using hstrip

/-- C8: extraction never fails on missing optional fields: on every page
on which `scrape_listing` succeeds, each absent field receives its default
(and it does succeed whenever the map container is absent); in particular
a first-level heading without the `'●'` delimiter yields the whole
(stripped) heading as the address and empty rooms. -/
theorem scrape_listing_defaults (u fid : String) (doc : Soup) :
    (doc.mapTag = none → ∃ l, scrape_listing u doc fid = some l) ∧
    (∀ l, scrape_listing u doc fid = some l →
      (doc.h1Text = none → l.address = "" ∧ l.rooms = "") ∧
      (∀ t, doc.h1Text = some t → pyStrip t = t → (∀ c ∈ t.data, c ≠ '●') →
        l.address = t ∧ l.rooms = "") ∧
      (doc.priceText = none → l.price = "") ∧
      (doc.dtdd = [] → l.area = "" ∧ l.floor = "") ∧
      (doc.paragraphs = [] → l.description = "") ∧
      (doc.imgDataBig = [] → l.image_urls = []) ∧
      (doc.mapTag = none → l.latitude = none ∧ l.longitude = none ∧
        l.nearest_target = "" ∧ l.distance_to_target_km = none)) := by
  constructor
  · intro hmap
    have hco : extractCoords doc = some (none, none) := by
      unfold extractCoords
      rw [hmap]
    unfold scrape_listing
    rw [hco]
    exact ⟨_, rfl⟩
  · intro l hl
    unfold scrape_listing at hl
    cases he : extractCoords doc with
    | none => rw [he] at hl; cases hl
    | some p =>
      obtain ⟨a, b⟩ := p
      rw [he] at hl
      cases hl
      refine ⟨?_, ?_, ?_, ?_, ?_, ?_, ?_⟩
      · intro h
        show (addressRooms doc.h1Text).1 = "" ∧ (addressRooms doc.h1Text).2 = ""
        rw [h, addressRooms_none]
        exact ⟨rfl, rfl⟩
      · intro t ht hstrip hdelim
        show (addressRooms doc.h1Text).1 = t ∧ (addressRooms doc.h1Text).2 = ""
        rw [ht, addressRooms_no_delim t hstrip hdelim]
        exact ⟨rfl, rfl⟩
      · intro h
        show doc.priceText.getD "" = ""
        rw [h]
        rfl
      · intro h
        show (extractAreaFloor doc.dtdd).1 = "" ∧ (extractAreaFloor doc.dtdd).2 = ""
        rw [h]
        exact ⟨rfl, rfl⟩
      · intro h
        show String.intercalate "\n\n" doc.paragraphs = ""
        rw [h]
        rfl
      · intro h
        show doc.imgDataBig.filterMap id = []
        rw [h]
        rfl
      · intro h
        have : extractCoords doc = some (none, none) := by
          unfold extractCoords
          rw [h]
        rw [he] at this
        cases this
        exact ⟨rfl, rfl, rfl, rfl⟩

/-- Witness for C8: on a page where every query comes back empty, the
scrape succeeds and the address and rooms fields are empty. -/
theorem scrape_listing_defaults_witness :
    ∃ l, scrape_listing "u" {} "fresh" = some l ∧ l.address = "" ∧ l.rooms = "" := by
  obtain ⟨l, hl⟩ := (scrape_listing_defaults "u" "fresh" {}).1 rfl
  obtain ⟨h1, _⟩ := (scrape_listing_defaults "u" "fresh" {}).2 l hl
  obtain ⟨ha, hr⟩ := h1 rfl
  exact ⟨l, hl, ha, hr⟩

/-- Helper: `float("0")` parses to zero. -/
lemma parseNumStr_zero : parseNumStr "0".data = some 0 := by
  simp [parseNumStr, digitsToNat]
  decide

/-- Helper: `float("24.9525")` parses to the exact rational. -/
lemma parseNumStr_lon : parseNumStr "24.9525".data = some (249525 / 10000 : ℚ) := by
  have h : ("24.9525".data.all isDigitDot ∧ List.count '.' "24.9525".data ≤ 1 ∧
      "24.9525".data.any Char.isDigit) := by decide
  rw [parseNumStr, if_pos h]
  rw [show ("24.9525".data.takeWhile Char.isDigit) = "24".data from by decide]
  rw [show digitsToNat "24".data = 24 from by decide]
  rw [show ("24.9525".data.drop ("24".data.length)).drop 1 = "9525".data from by decide]
  rw [show digitsToNat "9525".data = 9525 from by decide]
  norm_num

/-- The serialized map container of a page whose latitude attribute is
exactly `"0"` (a point on the equator). -/
def zeroTag : String :=
  "<listing-map-container [latitude]=\"0\" [longitude]=\"24.9525\"></listing-map-container>"

/-- A page carrying `zeroTag` and nothing else. -/
def docZero : Soup :=
  { mapTag := some zeroTag }

/-- Helper: coordinate extraction on `docZero` finds both coordinates,
the latitude being zero. -/
lemma extractCoords_docZero :
    extractCoords docZero = some (some 0, some (249525 / 10000 : ℚ)) := by
  have hs1 : reSearchNum latKey zeroTag.data = some "0".data := by decide
  have hs2 : reSearchNum lonKey zeroTag.data = some "24.9525".data := by decide
  show (match docZero.mapTag with
    | none => some (none, none)
    | some tagStr =>
      match reSearchNum latKey tagStr.data, reSearchNum lonKey tagStr.data with
      | some g1, some g2 =>
        match parseNumStr g1, parseNumStr g2 with
        | some la, some lo => some (some la, some lo)
        | _, _ => none
      | _, _ => some (none, none)) = some (some 0, some (249525 / 10000 : ℚ))
  show (match reSearchNum latKey zeroTag.data, reSearchNum lonKey zeroTag.data with
    | some g1, some g2 =>
      match parseNumStr g1, parseNumStr g2 with
      | some la, some lo => some (some la, some lo)
      | _, _ => none
    | _, _ => some (none, none)) = some (some 0, some (249525 / 10000 : ℚ))
  rw [hs1, hs2]
  show (match parseNumStr "0".data, parseNumStr "24.9525".data with
    | some la, some lo => some (some la, some lo)
    | _, _ => none) = some (some 0, some (249525 / 10000 : ℚ))
  rw [parseNumStr_zero, parseNumStr_lon]

/-- The listing scraped from `docZero`: coordinates present (latitude
zero), nearest target empty, distance absent. -/
def zeroLatListing : Listing :=
  { id := "fresh", url := "u", latitude := some 0,
    longitude := some (249525 / 10000 : ℚ) }

/-- Helper: evaluating the scrape on `docZero`. -/
lemma scrape_listing_docZero :
    scrape_listing "u" docZero "fresh" = some zeroLatListing := by
  have hnp : nearestPart (some 0) (some (249525 / 10000 : ℚ)) = ("", none) := by
    simp [nearestPart]
  unfold scrape_listing
  rw [extractCoords_docZero]
  dsimp only
  rw [hnp]
  rfl

/-- Counterexample to C3 as stated: on `docZero` both coordinates are
extracted (the latitude having the value zero), yet `nearest_target` and
`distance_to_target_km` are left empty/absent, because line 141 tests
Python truthiness (`if latitude and longitude:`), not presence. -/
theorem scrape_zero_latitude_not_populated :
    scrape_listing "u" docZero "fresh" = some zeroLatListing ∧
      zeroLatListing.latitude = some 0 ∧
      zeroLatListing.longitude = some (249525 / 10000 : ℚ) ∧
      zeroLatListing.nearest_target = "" ∧
      zeroLatListing.distance_to_target_km = none :=
  ⟨scrape_listing_docZero, rfl, rfl, rfl, rfl⟩

/-- Helper: the fold of `min` returns one of the dict entries. -/
lemma minByDist_mem (l : List (String × ℝ)) :
    ∀ best, minByDist best l ∈ best :: l := by
  induction l with
  | nil =>
    intro best
    rw [minByDist]
    exact List.mem_singleton.2 rfl
  | cons x rest ih =>
    intro best
    rw [minByDist]
    rcases List.mem_cons.1 (ih (if x.2 < best.2 then x else best)) with h1 | h1
    · rw [h1]
      split_ifs <;> simp
    · simp [List.mem_cons_of_mem, h1]

/-- Helper: the nearest-area name is always one of the three target-area
names. -/
lemma get_nearest_area_name (la lo : ℚ) :
    (get_nearest_area la lo).1 = "Töölö" ∨ (get_nearest_area la lo).1 = "Kallio" ∨
      (get_nearest_area la lo).1 = "Punavuori" := by
  unfold get_nearest_area
  simp only [TARGET_AREAS, List.map]
  have h := minByDist_mem
    [("Kallio", haversine (la:ℝ) (lo:ℝ) ((60.1854:ℚ):ℝ) ((24.9525:ℚ):ℝ)),
     ("Punavuori", haversine (la:ℝ) (lo:ℝ) ((60.1595:ℚ):ℝ) ((24.9384:ℚ):ℝ))]
    ("Töölö", haversine (la:ℝ) (lo:ℝ) ((60.1826:ℚ):ℝ) ((24.9221:ℚ):ℝ))
  simp only [List.mem_cons, List.not_mem_nil, or_false] at h
  rcases h with h | h | h <;> rw [h] <;> simp

/-- C3 (amended): `nearest_target` and `distance_to_target_km` are
populated exactly when both coordinates were extracted and both are
nonzero (Python float truthiness); a zero latitude or longitude, like
absent coordinates, leaves them empty/absent. -/
theorem scrape_nearest_iff (u fid : String) (doc : Soup) (l : Listing)
    (h : scrape_listing u doc fid = some l) :
    (l.nearest_target ≠ "" ∧ l.distance_to_target_km ≠ none) ↔
      (∃ la lo, l.latitude = some la ∧ l.longitude = some lo ∧ la ≠ 0 ∧ lo ≠ 0) := by
  unfold scrape_listing at h
  cases he : extractCoords doc with
  | none => rw [he] at h; cases h
  | some p =>
    obtain ⟨a, b⟩ := p
    rw [he] at h
    cases h
    show ((nearestPart a b).1 ≠ "" ∧ (nearestPart a b).2 ≠ none) ↔
      (∃ la lo, a = some la ∧ b = some lo ∧ la ≠ 0 ∧ lo ≠ 0)
    cases a with
    | none => simp [nearestPart]
    | some la =>
      cases b with
      | none => simp [nearestPart]
      | some lo =>
        by_cases hc : la ≠ 0 ∧ lo ≠ 0
        · rw [show nearestPart (some la) (some lo) =
            ((get_nearest_area la lo).1, some (get_nearest_area la lo).2) from by
              simp only [nearestPart]; rw [if_pos hc]]
          constructor
          · intro _
            exact ⟨la, lo, rfl, rfl, hc.1, hc.2⟩
          · intro _
            constructor
            · rcases get_nearest_area_name la lo with h | h | h <;> rw [h] <;> decide
            · simp
        · rw [show nearestPart (some la) (some lo) = ("", none) from by
            simp only [nearestPart]; rw [if_neg hc]]
          constructor
          · intro hfalse
            exact absurd rfl hfalse.1
          · rintro ⟨la2, lo2, h1, h2, h3, h4⟩
            cases h1
            cases h2
            exact absurd ⟨h3, h4⟩ hc

/-- Witness for the amended C3 at `docZero`: with a zero extracted
latitude, the populated-iff-nonzero equivalence holds (both sides false). -/
theorem scrape_nearest_iff_witness :
    (zeroLatListing.nearest_target ≠ "" ∧ zeroLatListing.distance_to_target_km ≠ none) ↔
      (∃ la lo, zeroLatListing.latitude = some la ∧ zeroLatListing.longitude = some lo ∧
        la ≠ 0 ∧ lo ≠ 0) :=
  scrape_nearest_iff "u" "fresh" docZero zeroLatListing scrape_listing_docZero

/-- Helper: in the value-quote-tail list, with a minus sign in the quote-free value `v`, the
character following the leading digits-and-dots run lies inside `v`, so it
is not the closing quote. -/
lemma after_run_not_quote (v post : List Char) (hm : '-' ∈ v)
    (hq : ∀ c ∈ v, c ≠ '\"') :
    ∃ c rest, (v ++ '\"' :: post).drop ((v ++ '\"' :: post).takeWhile isDigitDot).length =
      c :: rest ∧ c ≠ '\"' := by
  induction v with
  | nil => exact absurd hm (List.not_mem_nil _)
  | cons x v ih =>
    by_cases hx : isDigitDot x = true
    · have hx2 : x ≠ '-' := by
        intro h
        rw [h] at hx
        exact absurd hx (by decide)
      have hm2 : '-' ∈ v := by
        rcases List.mem_cons.1 hm with h | h
        · exact absurd h.symm hx2
        · exact h
      have hq2 : ∀ c ∈ v, c ≠ '\"' := fun c hc => hq c (List.mem_cons_of_mem x hc)
      obtain ⟨c, rest, hdrop, hc⟩ := ih hm2 hq2
      refine ⟨c, rest, ?_, hc⟩
      rw [List.cons_append, List.takeWhile_cons_of_pos hx, List.length_cons,
        List.drop_succ_cons]
      exact hdrop
    · refine ⟨x, v ++ '\"' :: post, ?_, hq x (List.mem_cons_self x v)⟩
      rw [List.cons_append, List.takeWhile_cons_of_neg (by simpa using hx)]
      simp

/-- Helper: the `([\d\.]+)"` tail cannot match a quote-delimited value
containing a minus sign. -/
lemma numCapture_minus (v post : List Char) (hm : '-' ∈ v)
    (hq : ∀ c ∈ v, c ≠ '\"') :
    numCapture (v ++ '\"' :: post) = none := by
  obtain ⟨c, rest, hdrop, hc⟩ := after_run_not_quote v post hm hq
  unfold numCapture
  rw [if_neg]
  rintro ⟨-, h2⟩
  rw [hdrop] at h2
  exact hc (Option.some.injEq _ _ ▸ h2)

/-- Helper: the left-to-right scan finds nothing when the anchored match
fails at every position. -/
lemma reSearchNum_none (key : List Char) (s : List Char)
    (h : ∀ i, tryMatchAt key (s.drop i) = none) : reSearchNum key s = none := by
  induction s with
  | nil => rfl
  | cons c rest ih =>
    have h0 := h 0
    rw [List.drop_zero] at h0
    rw [reSearchNum, h0]
    exact ih (fun i => by have hs := h (i + 1); rwa [List.drop_succ_cons] at hs)

/-- Helper: a list is a prefix of itself followed by anything. -/
lemma isPrefixOf_append_self (key ext : List Char) :
    key.isPrefixOf (key ++ ext) = true := by
  induction key with
  | nil =>
    rw [List.nil_append]
    cases ext <;> rfl
  | cons c ck ih => simp [List.cons_append, List.isPrefixOf, ih]

/-- Helper: `re.search` of `key([\d\.]+)"` fails on a subject whose unique
occurrence of `key` is followed by a quote-delimited value containing a
minus sign. -/
lemma reSearchNum_minus_none (key pre v post : List Char)
    (hm : '-' ∈ v) (hq : ∀ c ∈ v, c ≠ '\"')
    (huniq : ∀ i, i ≠ pre.length →
      key.isPrefixOf ((pre ++ key ++ v ++ '\"' :: post).drop i) = false) :
    reSearchNum key (pre ++ key ++ v ++ '\"' :: post) = none := by
  apply reSearchNum_none
  intro i
  by_cases hi : i = pre.length
  · subst hi
    unfold tryMatchAt
    have hdrop : (pre ++ key ++ v ++ '\"' :: post).drop pre.length =
        key ++ (v ++ '\"' :: post) := by
      rw [List.append_assoc pre key, List.append_assoc pre (key ++ v), ← List.append_assoc key]
      exact List.drop_left pre _
    rw [hdrop, if_pos (isPrefixOf_append_self key (v ++ '\"' :: post)), List.drop_left]
    exact numCapture_minus v post hm hq
  · rw [tryMatchAt, huniq i hi]
    rfl

/-- C10: the coordinate pattern `[\d\.]+` matches only digits and dots, so
on a page whose (unique) latitude or longitude attribute value contains a
minus sign, no coordinates are extracted and the scraped listing gets
`latitude = longitude = None`. -/
theorem scrape_minus_no_coords (u fid : String) (doc : Soup) (t : String)
    (pre v post : List Char)
    (hmap : doc.mapTag = some t)
    (hcase :
      (t.data = pre ++ latKey ++ v ++ '\"' :: post ∧ '-' ∈ v ∧ (∀ c ∈ v, c ≠ '\"') ∧
        ∀ i < t.data.length, i ≠ pre.length → latKey.isPrefixOf (t.data.drop i) = false) ∨
      (t.data = pre ++ lonKey ++ v ++ '\"' :: post ∧ '-' ∈ v ∧ (∀ c ∈ v, c ≠ '\"') ∧
        ∀ i < t.data.length, i ≠ pre.length → lonKey.isPrefixOf (t.data.drop i) = false)) :
    ∃ l, scrape_listing u doc fid = some l ∧ l.latitude = none ∧ l.longitude = none := by
  have hco : extractCoords doc = some (none, none) := by
    unfold extractCoords
    rw [hmap]
    dsimp only
    rcases hcase with ⟨heq, hm, hq, hb⟩ | ⟨heq, hm, hq, hb⟩
    · have hsearch : reSearchNum latKey t.data = none := by
        rw [heq]
        apply reSearchNum_minus_none latKey pre v post hm hq
        intro i hi
        by_cases hlt : i < t.data.length
        · have hx := hb i hlt hi
          rwa [heq] at hx
        · rw [List.drop_of_length_le (by rw [← heq]; exact not_lt.1 hlt)]
          decide
      rw [hsearch]
    · have hsearch : reSearchNum lonKey t.data = none := by
        rw [heq]
        apply reSearchNum_minus_none lonKey pre v post hm hq
        intro i hi
        by_cases hlt : i < t.data.length
        · have hx := hb i hlt hi
          rwa [heq] at hx
        · rw [List.drop_of_length_le (by rw [← heq]; exact not_lt.1 hlt)]
          decide
      rw [hsearch]
      cases reSearchNum latKey t.data <;> rfl
  unfold scrape_listing
  rw [hco]
  exact ⟨_, rfl, rfl, rfl⟩

/-- The serialized map container of a page with a negative latitude. -/
def minusTag : String :=
  "<listing-map-container [latitude]=\"-60.5\" [longitude]=\"24.9\"></listing-map-container>"

/-- A page carrying `minusTag` and nothing else. -/
def docMinus : Soup :=
  { mapTag := some minusTag }

/-- Witness for C10 at a concrete page with latitude `-60.5`. -/
theorem scrape_minus_no_coords_witness :
    ∃ l, scrape_listing "u" docMinus "fresh" = some l ∧
      l.latitude = none ∧ l.longitude = none :=
  scrape_minus_no_coords "u" "fresh" docMinus minusTag
    "<listing-map-container ".data "-60.5".data
    " [longitude]=\"24.9\"></listing-map-container>".data
    rfl
    (Or.inl ⟨by decide, by decide, by decide, by decide⟩)
